import Mathlib

/-!
Verification of the local-db-viewer core (SQLite connector, connector factory,
query-history store) against its specification.

The Python source is shallowly embedded: the sqlite3 engine is modelled as an
explicit table store (`DB`), SQL statements as a small AST (`Stmt`) whose
rendered text feeds the connector's string-level read/write classification,
and the query-history SQLite file as an explicit record list with an
autoincrement counter.  Wall-clock execution times are abstracted to `0.0`
(no claim constrains them).  Machine floats occur only as inert payloads that
are stored and returned, never computed with.
-/

namespace DBV

/-! ## Generic machinery: insertion sort (models SQL ORDER BY) -/

def insertLe (le? : α → α → Bool) (x : α) : List α → List α
  | [] => [x]
  | h :: t => if le? x h then x :: h :: t else h :: insertLe le? x t

def isort (le? : α → α → Bool) : List α → List α
  | [] => []
  | h :: t => insertLe le? h (isort le? t)

theorem insertLe_perm (le? : α → α → Bool) (x : α) (l : List α) :
    (insertLe le? x l).Perm (x :: l) := by
  induction l with
  | nil => simp [insertLe]
  | cons h t ih =>
    simp only [insertLe]
    by_cases hc : le? x h = true
    · simp [hc]
    · simp only [hc, if_false]
      exact (ih.cons h).trans (List.Perm.swap x h t)

theorem isort_perm (le? : α → α → Bool) (l : List α) : (isort le? l).Perm l := by
  induction l with
  | nil => simp [isort]
  | cons h t ih =>
    exact (insertLe_perm le? h (isort le? t)).trans (ih.cons h)

theorem mem_insertLe (le? : α → α → Bool) (x y : α) (l : List α) :
    y ∈ insertLe le? x l ↔ y = x ∨ y ∈ l := by
  constructor
  · intro hy
    have hmem := (insertLe_perm le? x l).mem_iff.mp hy
    simpa using hmem
  · intro hy
    refine (insertLe_perm le? x l).mem_iff.mpr ?h
    simpa using hy

theorem pairwise_insertLe (le? : α → α → Bool)
    (htot : ∀ a b, le? a b = true ∨ le? b a = true)
    (htr : ∀ a b c, le? a b = true → le? b c = true → le? a c = true)
    (x : α) (l : List α) (hl : List.Pairwise (fun a b => le? a b = true) l) :
    List.Pairwise (fun a b => le? a b = true) (insertLe le? x l) := by
  induction l with
  | nil => simp [insertLe]
  | cons h t ih =>
    have hh : ∀ b ∈ t, le? h b = true := fun b hb => List.rel_of_pairwise_cons hl hb
    have ht : List.Pairwise (fun a b => le? a b = true) t := hl.of_cons
    simp only [insertLe]
    by_cases hc : le? x h = true
    · rw [if_pos hc]
      refine List.Pairwise.cons ?hx hl
      intro b hb
      rcases List.mem_cons.mp hb with rfl | hb
      · exact hc
      · exact htr x h b hc (hh b hb)
    · have hxh : le? h x = true := by
        rcases htot x h with hcase | hcase
        · exact absurd hcase hc
        · exact hcase
      rw [if_neg hc]
      refine List.Pairwise.cons ?hh2 (ih ht)
      intro b hb
      rcases (mem_insertLe le? x b t).mp hb with rfl | hb
      · exact hxh
      · exact hh b hb

theorem pairwise_isort (le? : α → α → Bool)
    (htot : ∀ a b, le? a b = true ∨ le? b a = true)
    (htr : ∀ a b c, le? a b = true → le? b c = true → le? a c = true)
    (l : List α) :
    List.Pairwise (fun a b => le? a b = true) (isort le? l) := by
  induction l with
  | nil => simp [isort]
  | cons h t ih => exact pairwise_insertLe le? htot htr h (isort le? t) ih

/-! ## SQL values and the table store -/

/-- A stored SQLite scalar.  REAL and BLOB values do not occur in any claim,
so the value universe is restricted to NULL, INTEGER and TEXT. -/
inductive SQLValue where
  | vNull : SQLValue
  | vInt (i : Int) : SQLValue
  | vText (s : String) : SQLValue
deriving DecidableEq, Repr

/-- SQLite cross-type ordering used by ORDER BY: NULL < INTEGER < TEXT. -/
def sqlValueLe : SQLValue → SQLValue → Bool
  | .vNull, _ => true
  | .vInt _, .vNull => false
  | .vInt a, .vInt b => a ≤ b
  | .vInt _, .vText _ => true
  | .vText _, .vNull => false
  | .vText _, .vInt _ => false
  | .vText a, .vText b => a ≤ b

/-- One column row of `PRAGMA table_info`: name, declared type, notnull flag,
default value, primary-key ordinal. -/
structure ColMeta where
  name : String
  decl_type : String
  notnull : Int
  dflt_value : Option String
  pk : Int
deriving Repr

/-- One row of `PRAGMA foreign_key_list`. -/
structure FkMeta where
  from_col : String
  ref_table : String
  to_col : String
deriving Repr

/-- One index of `PRAGMA index_list` with its member columns resolved. -/
structure IdxMeta where
  name : String
  cols : List String
  unique_flag : Int
deriving Repr

/-- A table of the connected database file: catalog metadata plus rows. -/
structure Table where
  cols : List ColMeta
  rows : List (List SQLValue)
  fks : List FkMeta
  idxs : List IdxMeta
  ddl : String
deriving Repr

/-- The contents of a SQLite database file: named tables. -/
def DB := List (String × Table)

def dbSetRows (db : DB) (t : String) (rows : List (List SQLValue)) : DB :=
  db.map (fun p => if p.1 = t then (p.1, { p.2 with rows := rows }) else p)

def dbLookup (db : DB) (t : String) : Option Table :=
  List.lookup t db

/-! ## Schema-model dataclasses (base_connector.py) -/

/-- `ColumnInfo` dataclass. -/
structure ColumnInfo where
  name : String
  data_type : String
  nullable : Bool
  default_value : Option String
  is_primary_key : Bool
  foreign_key : Option String
deriving Repr

/-- `IndexInfo` dataclass. -/
structure IndexInfo where
  name : String
  columns : List String
  is_unique : Bool
deriving Repr

/-- A foreign-key descriptor dict built by `get_schema`. -/
structure FkOut where
  column : String
  ref_table : String
  ref_column : String
deriving Repr

/-- `TableSchema` dataclass. -/
structure TableSchema where
  name : String
  columns : List ColumnInfo
  primary_keys : List String
  foreign_keys : List FkOut
  indexes : List IndexInfo
  row_count : Nat
  ddl : String
deriving Repr

/-- `QueryResult` dataclass. -/
structure QueryResult where
  columns : List String
  rows : List (List SQLValue)
  row_count : Int
  execution_time : Float
  error : Option String
deriving Repr

/-- `QueryResult.success` property: `self.error is None`. -/
def QueryResult.success (r : QueryResult) : Bool := r.error.isNone

/-- The module's exception taxonomy (DatabaseError subclasses). -/
inductive DBError where
  | connectionError (msg : String)
  | queryError (msg : String)
  | unsupportedDatabaseError (msg : String)
deriving Repr, DecidableEq

/-! ## The connector state -/

/-- `SQLiteConnector` mutable state: `_connection` (holding the open file's
contents) and `_file_path`. -/
structure SQLiteConnector where
  connection : Option DB
  file_path : Option String

/-- `SQLiteConnector()`: both fields start as None. -/
def SQLiteConnector.init : SQLiteConnector :=
  { connection := none, file_path := none }

/-- `is_connected` property: `self._connection is not None`. -/
def SQLiteConnector.is_connected (c : SQLiteConnector) : Bool :=
  c.connection.isSome

/-! ## Python string operations used by the classification

`query.strip().upper().startswith("SELECT")` is embedded over character
lists: `strip` drops leading and trailing whitespace, `upper` is ASCII
uppercasing (all strings involved are ASCII), `startswith` is a prefix
check. -/

/-- ASCII uppercasing of a single character. -/
def asciiUpper (c : Char) : Char :=
  if 97 ≤ c.toNat ∧ c.toNat ≤ 122 then Char.ofNat (c.toNat - 32) else c

/-- ASCII lowercasing of a single character (SQLite LIKE folds only A-Z). -/
def asciiLower (c : Char) : Char :=
  if 65 ≤ c.toNat ∧ c.toNat ≤ 90 then Char.ofNat (c.toNat + 32) else c

def dropLeadingWs : List Char → List Char
  | [] => []
  | c :: cs => if c.isWhitespace then dropLeadingWs cs else c :: cs

def dropTrailingWs : List Char → List Char
  | [] => []
  | c :: cs =>
    let r := dropTrailingWs cs
    if r.isEmpty then (if c.isWhitespace then [] else [c]) else c :: r

/-- Prefix test on character lists (`str.startswith`). -/
def startsWithChars : List Char → List Char → Bool
  | [], _ => true
  | _ :: _, [] => false
  | n :: ns, h :: hs => (n == h) && startsWithChars ns hs

/-- The connector's lexical read/write classification:
`query.strip().upper().startswith("SELECT")`. -/
def isReadQuery (s : String) : Bool :=
  startsWithChars "SELECT".data
    ((dropTrailingWs (dropLeadingWs s.data)).map asciiUpper)

/-! ## Statements and the engine

The repository passes SQL text through to sqlite3 and only classifies its
shape.  The engine is embedded for the statement forms the claims exercise:
literal selects, the paginated star-select that `get_table_data` builds,
table deletion, and an arbitrary statement the engine rejects (covering
syntax errors, lock timeouts, and any other sqlite3.Error). -/

inductive Stmt where
  | selectLit (n : Int) : Stmt
  | selectStar (table : String) (order_by : Option String) (order_desc : Bool)
      (limit offset : Int) : Stmt
  | deleteAll (table : String) : Stmt
  | failing (text : String) (msg : String) : Stmt

/-- The SQL text of a statement, as the Python code would build or receive
it; the classification in `execute_query` operates on this text. -/
def render : Stmt → String
  | .selectLit n => "SELECT " ++ toString n
  | .selectStar t ob od l o =>
      "SELECT * FROM \"" ++ t ++ "\""
        ++ (match ob with
            | none => ""
            | some c => " ORDER BY \"" ++ c ++ "\" " ++ (if od then "DESC" else "ASC"))
        ++ " LIMIT " ++ toString l ++ " OFFSET " ++ toString o
  | .deleteAll t => "DELETE FROM " ++ t
  | .failing text _ => text

/-- SQLite `LIMIT l OFFSET o`: a negative offset is treated as zero, a
negative limit means no limit. -/
def applyLimitOffset (rows : List (List SQLValue)) (limit offset : Int) :
    List (List SQLValue) :=
  let dropped := rows.drop offset.toNat
  if limit < 0 then dropped else dropped.take limit.toNat

/-- What the sqlite3 cursor exposes after `execute`: a result set
(description and fetched rows) or a mutation rowcount. -/
inductive EngineOut where
  | resultSet (cols : List String) (rows : List (List SQLValue)) : EngineOut
  | mutated (rowcount : Int) : EngineOut

/-- The embedded sqlite3 engine: runs one statement against the database,
returning an error message (the text of the raised sqlite3.Error) or the
updated database and cursor contents. -/
def engineExec : Stmt → DB → Except String (DB × EngineOut)
  | .selectLit n, db => .ok (db, .resultSet [toString n] [[.vInt n]])
  | .selectStar t ob od l o, db =>
    match dbLookup db t with
    | none => .error ("no such table: " ++ t)
    | some tbl =>
      match ob with
      | none =>
        .ok (db, .resultSet (tbl.cols.map (fun c => c.name))
              (applyLimitOffset tbl.rows l o))
      | some c =>
        match (tbl.cols.map (fun cm => cm.name)).findIdx? (fun n => n == c) with
        | none => .error ("no such column: " ++ c)
        | some i =>
          let keyLe := fun (r s : List SQLValue) =>
            sqlValueLe (r.getD i .vNull) (s.getD i .vNull)
          let sorted :=
            if od then isort (fun r s => keyLe s r) tbl.rows
            else isort keyLe tbl.rows
          .ok (db, .resultSet (tbl.cols.map (fun cm => cm.name))
                (applyLimitOffset sorted l o))
  | .deleteAll t, db =>
    match dbLookup db t with
    | none => .error ("no such table: " ++ t)
    | some tbl => .ok (dbSetRows db t [], .mutated (tbl.rows.length : Int))
  | .failing _ msg, _ => .error msg

/-! ## SQLiteConnector.execute_query -/

/-- `execute_query(query, timeout)`: returns the (possibly committed)
connector state and a `QueryResult`.  Every failure — not connected, or any
sqlite3.Error raised by the engine — is captured into the result's `error`
field; nothing is raised. -/
def execute_query (c : SQLiteConnector) (query : Stmt) (timeout : Int) :
    SQLiteConnector × QueryResult :=
  match c.connection with
  | none =>
    (c, { columns := [], rows := [], row_count := 0, execution_time := 0.0,
          error := some "Not connected to database" })
  | some db =>
    let _busy_timeout_ms := timeout * 1000
    match engineExec query db with
    | .error e =>
      (c, { columns := [], rows := [], row_count := 0, execution_time := 0.0,
            error := some e })
    | .ok (db2, out) =>
      if isReadQuery (render query) then
        match out with
        | .resultSet cols rows =>
          (c, { columns := cols, rows := rows, row_count := (rows.length : Int),
                execution_time := 0.0, error := none })
        | .mutated _ =>
          -- cursor.description is None and fetchall() is empty for a
          -- statement that produced no result set
          (c, { columns := [], rows := [], row_count := 0,
                execution_time := 0.0, error := none })
      else
        match out with
        | .mutated n =>
          ({ c with connection := some db2 },
           { columns := ["affected_rows"], rows := [[.vInt n]], row_count := n,
             execution_time := 0.0, error := none })
        | .resultSet _ _ =>
          -- cursor.rowcount is -1 after a statement that returned rows
          ({ c with connection := some db2 },
           { columns := ["affected_rows"], rows := [[.vInt (-1)]], row_count := -1,
             execution_time := 0.0, error := none })

/-- `get_row_count(table)`: 0 when disconnected; a failing COUNT query (for
example on a missing table) is caught and also yields 0. -/
def get_row_count (c : SQLiteConnector) (table_name : String) : Nat :=
  match c.connection with
  | none => 0
  | some db =>
    match dbLookup db table_name with
    | none => 0
    | some tbl => tbl.rows.length

/-- `get_table_data(table, offset, limit, order_by, order_desc)`: raises
QueryError when not connected, otherwise builds the bounded star-select and
delegates to `execute_query` with the default 30-second timeout. -/
def get_table_data (c : SQLiteConnector) (table_name : String)
    (offset limit : Int) (order_by : Option String) (order_desc : Bool) :
    Except DBError QueryResult :=
  match c.connection with
  | none => .error (.queryError "Not connected to database")
  | some _ =>
    .ok (execute_query c (.selectStar table_name order_by order_desc limit offset) 30).2

/-! ## SQLiteConnector.get_schema -/

/-- Builds one `ColumnInfo` from a `PRAGMA table_info` row: declared type
defaults to "BLOB" when empty, `notnull` is inverted into `nullable`, and a
nonzero primary-key ordinal sets the flag. -/
def mkColumnInfo (cm : ColMeta) : ColumnInfo :=
  { name := cm.name,
    data_type := if cm.decl_type = "" then "BLOB" else cm.decl_type,
    nullable := cm.notnull == 0,
    default_value := cm.dflt_value,
    is_primary_key := cm.pk != 0,
    foreign_key := none }

/-- The post-hoc foreign-key annotation: a column matching the FK source
column receives the `ref_table.ref_column` string. -/
def applyFk (fk : FkMeta) (col : ColumnInfo) : ColumnInfo :=
  if col.name = fk.from_col then
    { col with foreign_key := some (fk.ref_table ++ "." ++ fk.to_col) }
  else col

/-- `get_schema(table)`: raises QueryError when not connected; otherwise
assembles the schema from the catalog pragmas.  The pragmas return no rows
for a missing table, so a missing table yields an empty schema, not an
error. -/
def get_schema (c : SQLiteConnector) (table_name : String) :
    Except DBError TableSchema :=
  match c.connection with
  | none => .error (.queryError "Not connected to database")
  | some db =>
    let meta : Table :=
      match dbLookup db table_name with
      | none => { cols := [], rows := [], fks := [], idxs := [], ddl := "" }
      | some tbl => tbl
    let columns0 := meta.cols.map mkColumnInfo
    let primary_keys := (meta.cols.filter (fun cm => cm.pk != 0)).map (fun cm => cm.name)
    let columns := meta.fks.foldl (fun cols fk => cols.map (applyFk fk)) columns0
    let foreign_keys := meta.fks.map (fun fk =>
      { column := fk.from_col, ref_table := fk.ref_table, ref_column := fk.to_col : FkOut })
    let indexes := meta.idxs.map (fun ix =>
      { name := ix.name, columns := ix.cols, is_unique := ix.unique_flag != (0 : Int) : IndexInfo })
    .ok { name := table_name, columns := columns, primary_keys := primary_keys,
          foreign_keys := foreign_keys, indexes := indexes,
          row_count := get_row_count c table_name, ddl := meta.ddl }

/-! ## Path suffix resolution (pathlib.Path.suffix) -/

/-- Split a character list on the path separator. -/
def splitSlash (cs : List Char) : List (List Char) :=
  cs.foldr
    (fun c acc =>
      if c = '/' then [] :: acc
      else
        match acc with
        | [] => [[c]]
        | a :: rest => (c :: a) :: rest)
    [[]]

/-- `Path(p).name`: the final nonempty path component. -/
def pathFinalName (p : String) : String :=
  String.mk (((((splitSlash p.data)).filter (fun l => !l.isEmpty)).getLast?).getD [])

/-- Index of the last occurrence of a dot. -/
def lastDotIdx (cs : List Char) : Option Nat :=
  ((cs.enum.filter (fun pr => pr.2 = '.')).map (fun pr => pr.1)).getLast?

/-- `Path(p).suffix`: the extension of the final component, empty unless the
last dot sits strictly inside the name. -/
def pathSuffix (p : String) : String :=
  let cs := (pathFinalName p).data
  match lastDotIdx cs with
  | none => ""
  | some i => if 0 < i ∧ i + 1 < cs.length then String.mk (cs.drop i) else ""

/-- Python `str.lower()` restricted to ASCII (file extensions are ASCII). -/
def strToLower (s : String) : String :=
  String.mk (s.data.map asciiLower)

/-! ## SQLiteConnector.connect / disconnect -/

/-- `SQLiteConnector.SUPPORTED_EXTENSIONS`. -/
def SUPPORTED_EXTENSIONS : List String := [".db", ".sqlite", ".sqlite3"]

/-- `disconnect()`: closes the handle and clears both fields. -/
def disconnect (_c : SQLiteConnector) : SQLiteConnector :=
  { connection := none, file_path := none }

/-- `connect(file_path)`: checks existence and extension before tearing down
any existing handle, then opens the file.  The filesystem is abstracted as
the existence test `fs` and the loader `load` (sqlite3.connect plus the
foreign-key pragma, whose failure message is the loader's error).  Returns
the new connector state and either success or the raised ConnectionError. -/
def connect (c : SQLiteConnector) (fs : String → Bool)
    (load : String → Except String DB) (file_path : String) :
    SQLiteConnector × Except DBError Bool :=
  if fs file_path = false then
    (c, .error (.connectionError ("File not found: " ++ file_path)))
  else if SUPPORTED_EXTENSIONS.contains (strToLower (pathSuffix file_path)) = false then
    (c, .error (.connectionError
      ("Unsupported file extension: " ++ pathSuffix file_path
        ++ ". Supported: " ++ String.intercalate ", " SUPPORTED_EXTENSIONS)))
  else
    match load file_path with
    | .ok db =>
      ({ connection := some db, file_path := some file_path }, .ok true)
    | .error e =>
      ({ connection := none, file_path := none },
       .error (.connectionError ("Failed to connect to database: " ++ e)))

/-! ## ConnectorFactory -/

/-- The keys of the factory's extension registry, in insertion order (all
map to `SQLiteConnector`). -/
def factoryExtensions : List String := [".db", ".sqlite", ".sqlite3"]

/-- The UnsupportedDatabaseError message for an unmapped extension. -/
def unsupportedMsg (ext : String) : String :=
  "Unsupported file type: " ++ ext ++ ". Supported types: "
    ++ String.intercalate ", " factoryExtensions

/-- `ConnectorFactory.create_connector(file_path)`: resolves the extension
case-insensitively; unmapped extensions raise UnsupportedDatabaseError,
mapped ones instantiate a fresh (unconnected) connector. -/
def create_connector (file_path : String) : Except DBError SQLiteConnector :=
  let ext := strToLower (pathSuffix file_path)
  if factoryExtensions.contains ext = false then
    .error (.unsupportedDatabaseError (unsupportedMsg ext))
  else
    .ok SQLiteConnector.init

/-! ## Query history store (query_history.py)

The store's own SQLite file is embedded as an explicit list of persisted
rows plus the AUTOINCREMENT counter.  `datetime.now().isoformat()` is passed
in as the `now` argument. -/

/-- The `QueryRecord` dataclass. -/
structure QueryRecord where
  id : Option Int
  database_path : String
  query_text : String
  timestamp : String
  execution_time : Float
  row_count : Int
  success : Bool
  error_message : String

/-- One persisted row of the `query_history` table; `success` is stored as
an INTEGER. -/
structure HistRow where
  row_id : Int
  database_path : String
  query_text : String
  timestamp : String
  execution_time : Float
  row_count : Int
  success_int : Int
  error_message : String

/-- The `query_history` table plus its AUTOINCREMENT counter. -/
structure QueryHistoryDB where
  rows : List HistRow
  next_id : Int

/-- `add_query(record)`: defaults the timestamp to now when absent, inserts,
and returns the generated id. -/
def add_query (db : QueryHistoryDB) (record : QueryRecord) (now : String) :
    QueryHistoryDB × Int :=
  let ts := if record.timestamp = "" then now else record.timestamp
  let row : HistRow :=
    { row_id := db.next_id,
      database_path := record.database_path,
      query_text := record.query_text,
      timestamp := ts,
      execution_time := record.execution_time,
      row_count := record.row_count,
      success_int := if record.success then 1 else 0,
      error_message := record.error_message }
  ({ rows := db.rows ++ [row], next_id := db.next_id + 1 }, db.next_id)

/-- Converting a fetched row back into a `QueryRecord`; `bool(row[6])` is
"nonzero". -/
def rowToRecord (r : HistRow) : QueryRecord :=
  { id := some r.row_id,
    database_path := r.database_path,
    query_text := r.query_text,
    timestamp := r.timestamp,
    execution_time := r.execution_time,
    row_count := r.row_count,
    success := r.success_int != 0,
    error_message := r.error_message }

/-- `ORDER BY timestamp DESC` (strings compare by byte order, which on the
store's ISO-8601 timestamps is chronological order). -/
def tsDescSort (rows : List HistRow) : List HistRow :=
  isort (fun a b => decide (b.timestamp ≤ a.timestamp)) rows

/-- SQL `LIMIT n`: a negative limit means no limit. -/
def takeLimit (limit : Int) (l : List α) : List α :=
  if limit < 0 then l else l.take limit.toNat

/-- `get_history(limit, database_path)`. -/
def get_history (db : QueryHistoryDB) (limit : Int)
    (database_path : Option String) : List QueryRecord :=
  let sel :=
    match database_path with
    | some p => db.rows.filter (fun r => r.database_path == p)
    | none => db.rows
  (takeLimit limit (tsDescSort sel)).map rowToRecord

/-! ### SQLite LIKE matching

`search_history` filters with ``query_text LIKE '%' || term || '%'``.
SQLite's LIKE treats `%` as any sequence, `_` as any single character, and
compares other characters ASCII-case-insensitively. -/

def likeMatch : List Char → List Char → Bool
  | [], cs => cs.isEmpty
  | p :: ps, cs =>
    if p = '%' then
      (cs.tails).any (fun suf => likeMatch ps suf)
    else
      match cs with
      | [] => false
      | c :: cs2 =>
        (if p = '_' then true else asciiLower p == asciiLower c) && likeMatch ps cs2

/-- The pattern `'%' + search_term + '%'`. -/
def likePattern (term : String) : List Char :=
  '%' :: (term.data ++ ['%'])

/-- `search_history(search_term, limit)`. -/
def search_history (db : QueryHistoryDB) (search_term : String) (limit : Int) :
    List QueryRecord :=
  let sel := db.rows.filter (fun r => likeMatch (likePattern search_term) r.query_text.data)
  (takeLimit limit (tsDescSort sel)).map rowToRecord

/-- `delete_record(record_id)`: deletes matching rows and reports
`cursor.rowcount > 0`. -/
def delete_record (db : QueryHistoryDB) (record_id : Int) :
    QueryHistoryDB × Bool :=
  let removed := db.rows.countP (fun r => r.row_id == record_id)
  ({ rows := db.rows.filter (fun r => !(r.row_id == record_id)),
     next_id := db.next_id },
   decide (0 < removed))

/-- `clear_history()`: deletes every row and returns True whenever the
DELETE executes, with no check of how many rows it removed. -/
def clear_history (db : QueryHistoryDB) : QueryHistoryDB × Bool :=
  ({ rows := [], next_id := db.next_id }, true)

/-! ### Spec-side definition for C8: case-insensitive substring containment

The spec describes `search_history` as a "substring match
(case-insensitive) against query text"; this definition follows those
words, to be compared with the LIKE-based code path. -/

/-- `startsCI needle hay`: `needle` is a case-insensitive prefix of `hay`. -/
def startsCI : List Char → List Char → Bool
  | [], _ => true
  | _ :: _, [] => false
  | n :: ns, h :: hs => (asciiLower n == asciiLower h) && startsCI ns hs

/-- `containsCI needle hay`: `needle` occurs in `hay` as a case-insensitive
contiguous substring. -/
def containsCI (needle : List Char) : List Char → Bool
  | [] => startsCI needle []
  | c :: hs => startsCI needle (c :: hs) || containsCI needle hs

/-- Case-insensitive substring containment on strings: spec-side meaning of
"query_text contains the term". -/
def containsCIStr (hay needle : String) : Bool :=
  containsCI needle.data hay.data

/-! ## Helper lemmas -/

theorem strData_append (a b : String) : (a ++ b).data = a.data ++ b.data := rfl

theorem strAppend_assoc (a b c : String) : a ++ b ++ c = a ++ (b ++ c) := by
  show String.mk ((a.data ++ b.data) ++ c.data) = String.mk (a.data ++ (b.data ++ c.data))
  rw [List.append_assoc]

theorem dropTrailingWs_cons_of_not_ws (c : Char) (cs : List Char)
    (h : c.isWhitespace = false) :
    dropTrailingWs (c :: cs) = c :: dropTrailingWs cs := by
  cases hd : dropTrailingWs cs with
  | nil => simp [dropTrailingWs, hd, h]
  | cons a as => simp [dropTrailingWs, hd, h]

theorem isReadQuery_data_select (s : String) (rest : List Char)
    (h : s.data = 'S' :: 'E' :: 'L' :: 'E' :: 'C' :: 'T' :: rest) :
    isReadQuery s = true := by
  unfold isReadQuery
  rw [h]
  rw [show dropLeadingWs ('S' :: 'E' :: 'L' :: 'E' :: 'C' :: 'T' :: rest)
        = 'S' :: 'E' :: 'L' :: 'E' :: 'C' :: 'T' :: rest from by
    simp [dropLeadingWs]]
  rw [dropTrailingWs_cons_of_not_ws _ _ (by decide),
      dropTrailingWs_cons_of_not_ws _ _ (by decide),
      dropTrailingWs_cons_of_not_ws _ _ (by decide),
      dropTrailingWs_cons_of_not_ws _ _ (by decide),
      dropTrailingWs_cons_of_not_ws _ _ (by decide),
      dropTrailingWs_cons_of_not_ws _ _ (by decide)]
  simp [startsWithChars,
        show "SELECT".data = ['S', 'E', 'L', 'E', 'C', 'T'] from rfl,
        show asciiUpper 'S' = 'S' from rfl, show asciiUpper 'E' = 'E' from rfl,
        show asciiUpper 'L' = 'L' from rfl, show asciiUpper 'C' = 'C' from rfl,
        show asciiUpper 'T' = 'T' from rfl]

theorem isReadQuery_data_head (s : String) (c : Char) (rest : List Char)
    (h : s.data = c :: rest) (h1 : c.isWhitespace = false)
    (h2 : (('S' : Char) == asciiUpper c) = false) :
    isReadQuery s = false := by
  unfold isReadQuery
  rw [h]
  rw [show dropLeadingWs (c :: rest) = c :: rest from by simp [dropLeadingWs, h1]]
  rw [dropTrailingWs_cons_of_not_ws _ _ h1]
  simp [startsWithChars, h2,
        show "SELECT".data = ['S', 'E', 'L', 'E', 'C', 'T'] from rfl]

theorem isReadQuery_selectLit (n : Int) :
    isReadQuery (render (.selectLit n)) = true := by
  obtain ⟨rest, h⟩ :
      ∃ rest, (render (.selectLit n)).data = 'S' :: 'E' :: 'L' :: 'E' :: 'C' :: 'T' :: rest :=
    ⟨_, rfl⟩
  exact isReadQuery_data_select _ _ h

theorem isReadQuery_selectStar (t : String) (ob : Option String) (od : Bool)
    (l o : Int) :
    isReadQuery (render (.selectStar t ob od l o)) = true := by
  obtain ⟨rest, h⟩ :
      ∃ rest, (render (.selectStar t ob od l o)).data
        = 'S' :: 'E' :: 'L' :: 'E' :: 'C' :: 'T' :: rest :=
    ⟨_, rfl⟩
  exact isReadQuery_data_select _ _ h

theorem isReadQuery_deleteAll (t : String) :
    isReadQuery (render (.deleteAll t)) = false := by
  obtain ⟨rest, h⟩ : ∃ rest, (render (.deleteAll t)).data = 'D' :: rest := ⟨_, rfl⟩
  exact isReadQuery_data_head _ 'D' _ h (by decide) (by decide)

/-! ## Claim theorems -/

/-- C1: for every statement and timeout, `execute_query` never raises —
 disconnection and every engine failure (syntax error, lock timeout, missing
 table, all surfaced as an `engineExec` error) are captured into the returned
 `QueryResult.error`, every engine success yields `error = none`, and a
 `QueryResult` counts as successful exactly when its `error` field is `none`
 (`success` never consults `row_count`).  The embedding of `execute_query`
 is a total function into `QueryResult`, which is the "never raises" part. -/
theorem C1_execute_query_error_in_band :
    (∀ (r : QueryResult), r.success = true ↔ r.error = none)
    ∧ (∀ (c : SQLiteConnector) (q : Stmt) (timeout : Int),
        c.connection = none →
        (execute_query c q timeout).2.error = some "Not connected to database")
    ∧ (∀ (c : SQLiteConnector) (db : DB) (q : Stmt) (timeout : Int) (e : String),
        c.connection = some db → engineExec q db = .error e →
        (execute_query c q timeout).2.error = some e)
    ∧ (∀ (c : SQLiteConnector) (db : DB) (q : Stmt) (timeout : Int)
        (res : DB × EngineOut),
        c.connection = some db → engineExec q db = .ok res →
        (execute_query c q timeout).2.error = none) := by
  refine ⟨?h1, ?h2, ?h3, ?h4⟩
  · intro r
    simp [QueryResult.success, Option.isNone_iff_eq_none]
  · intro c q timeout hc
    simp [execute_query, hc]
  · intro c q db timeout e hc he
    simp [execute_query, hc, he]
  · intro c db q timeout res hc hr
    rcases res with ⟨db2, out⟩
    by_cases hb : isReadQuery (render q) = true
    · cases out <;> simp [execute_query, hc, hr, hb]
    · cases out <;> simp [execute_query, hc, hr, hb]

def exDB1 : DB :=
  [("t",
    { cols := [{ name := "x", decl_type := "INTEGER", notnull := 0,
                 dflt_value := none, pk := 1 }],
      rows := [[.vInt 1], [.vInt 2]],
      fks := [], idxs := [],
      ddl := "CREATE TABLE t (x INTEGER PRIMARY KEY)" })]

def exConn1 : SQLiteConnector :=
  { connection := some exDB1, file_path := some "sample.db" }

/-- C1 witness: the disconnected case, a syntax-error case and a success
case, each obtained from `C1_execute_query_error_in_band` at concrete
inputs. -/
theorem C1_witness :
    (execute_query { connection := none, file_path := none } (.selectLit 1) 30).2.error
        = some "Not connected to database"
    ∧ (execute_query exConn1 (.failing "SELEC 1" "near SELEC: syntax error") 30).2.error
        = some "near SELEC: syntax error"
    ∧ (execute_query exConn1 (.selectLit 1) 30).2.error = none := by
  refine ⟨?w1, ?w2, ?w3⟩
  · exact C1_execute_query_error_in_band.2.1 _ (.selectLit 1) 30 rfl
  · exact C1_execute_query_error_in_band.2.2.1 _ exDB1 _ 30 _ rfl rfl
  · exact C1_execute_query_error_in_band.2.2.2 _ exDB1 _ 30 _ rfl rfl

/-- C9: while disconnected, `get_table_data` raises a QueryError
 "Not connected to database", whereas `execute_query` folds the same state
 into an in-band unsuccessful `QueryResult` with that error message. -/
theorem C9_disconnected_asymmetry :
    ∀ (c : SQLiteConnector) (t : String) (offset limit : Int)
      (ob : Option String) (od : Bool) (q : Stmt) (timeout : Int),
      c.connection = none →
      get_table_data c t offset limit ob od
          = .error (DBError.queryError "Not connected to database")
      ∧ (execute_query c q timeout).2.error = some "Not connected to database"
      ∧ (execute_query c q timeout).2.success = false := by
  intro c t offset limit ob od q timeout hc
  refine ⟨?g1, ?g2, ?g3⟩
  · simp [get_table_data, hc]
  · simp [execute_query, hc]
  · simp [execute_query, hc, QueryResult.success]

/-- C9 witness: the fresh connector is disconnected; both behaviours at
concrete arguments. -/
theorem C9_witness :
    get_table_data SQLiteConnector.init "t" 0 100 none false
        = .error (DBError.queryError "Not connected to database")
    ∧ (execute_query SQLiteConnector.init (.selectLit 1) 30).2.error
        = some "Not connected to database" := by
  have h := C9_disconnected_asymmetry SQLiteConnector.init "t" 0 100 none false
    (.selectLit 1) 30 rfl
  exact ⟨h.1, h.2.1⟩

/-- C10: when `connect` fails on the existence or extension check, the
connector state is returned untouched — the previously open connection,
`is_connected`, and `file_path` all keep their prior values, and the raised
error is a ConnectionError. -/
theorem C10_failed_connect_preserves_state :
    ∀ (c : SQLiteConnector) (fs : String → Bool)
      (load : String → Except String DB) (fp : String),
      (fs fp = false
        ∨ SUPPORTED_EXTENSIONS.contains (strToLower (pathSuffix fp)) = false) →
      (connect c fs load fp).1 = c
      ∧ (connect c fs load fp).1.is_connected = c.is_connected
      ∧ (connect c fs load fp).1.file_path = c.file_path
      ∧ ∃ msg, (connect c fs load fp).2 = .error (DBError.connectionError msg) := by
  intro c fs load fp h
  by_cases hfs : fs fp = false
  · refine ⟨?s1, ?s2, ?s3, ?s4⟩ <;> simp [connect, hfs]
  · have hext : SUPPORTED_EXTENSIONS.contains (strToLower (pathSuffix fp)) = false := by
      rcases h with h | h
      · exact absurd h hfs
      · exact h
    have hfs2 : fs fp = true := by
      cases hval : fs fp
      · exact absurd hval hfs
      · rfl
    have hmem : strToLower (pathSuffix fp) ∉ SUPPORTED_EXTENSIONS := by
      simpa using hext
    refine ⟨?t1, ?t2, ?t3, ?t4⟩ <;> simp [connect, hfs2, hmem]

def exConn10 : SQLiteConnector :=
  { connection := some exDB1, file_path := some "already-open.db" }

/-- C10 witness: a connect on a missing file leaves a previously connected
connector untouched and yields a ConnectionError. -/
theorem C10_witness :
    (connect exConn10 (fun _ => false) (fun _ => .error "io") "gone.db").1 = exConn10
    ∧ ∃ msg, (connect exConn10 (fun _ => false) (fun _ => .error "io") "gone.db").2
        = .error (DBError.connectionError msg) := by
  have h := C10_failed_connect_preserves_state exConn10 (fun _ => false)
    (fun _ => .error "io") "gone.db" (Or.inl rfl)
  exact ⟨h.1, h.2.2.2⟩

/-- C4: an unmapped extension (resolved case-insensitively) makes
`create_connector` fail with an UnsupportedDatabaseError whose message
contains that extension and the registered extensions (".db" shown here as
the witness of "at least one"); a mapped extension yields the freshly
instantiated connector in the disconnected state. -/
theorem C4_create_connector_dispatch :
    (∀ (fp : String),
      factoryExtensions.contains (strToLower (pathSuffix fp)) = false →
      create_connector fp
          = .error (.unsupportedDatabaseError (unsupportedMsg (strToLower (pathSuffix fp))))
      ∧ (∃ pre post, unsupportedMsg (strToLower (pathSuffix fp))
            = pre ++ strToLower (pathSuffix fp) ++ post)
      ∧ (∃ pre post, unsupportedMsg (strToLower (pathSuffix fp)) = pre ++ ".db" ++ post))
    ∧ (∀ (fp : String),
      factoryExtensions.contains (strToLower (pathSuffix fp)) = true →
      create_connector fp = .ok SQLiteConnector.init
      ∧ (SQLiteConnector.init).is_connected = false) := by
  constructor
  · intro fp h
    have hmem : strToLower (pathSuffix fp) ∉ factoryExtensions := by simpa using h
    refine ⟨by simp [create_connector, hmem], ?e1, ?e2⟩
    · exact ⟨"Unsupported file type: ",
        ". Supported types: " ++ String.intercalate ", " factoryExtensions,
        by unfold unsupportedMsg; rw [strAppend_assoc]⟩
    · refine ⟨"Unsupported file type: " ++ strToLower (pathSuffix fp)
          ++ ". Supported types: ", ", .sqlite, .sqlite3", ?goal⟩
      unfold unsupportedMsg
      rw [show String.intercalate ", " factoryExtensions
            = ".db" ++ ", .sqlite, .sqlite3" from rfl]
      simp [strAppend_assoc]
  · intro fp h
    have hmem : strToLower (pathSuffix fp) ∈ factoryExtensions := by simpa using h
    exact ⟨by simp [create_connector, hmem], rfl⟩

/-- C4 witness: "file.xyz" is rejected with a message containing ".xyz" and
".db"; "dir/Data.DB" resolves case-insensitively to ".db" and yields a
disconnected connector. -/
theorem C4_witness :
    create_connector "file.xyz"
        = .error (.unsupportedDatabaseError (unsupportedMsg ".xyz"))
    ∧ (∃ pre post, unsupportedMsg ".xyz" = pre ++ ".db" ++ post)
    ∧ create_connector "dir/Data.DB" = .ok SQLiteConnector.init := by
  have h1 := C4_create_connector_dispatch.1 "file.xyz" (by decide)
  have h2 := C4_create_connector_dispatch.2 "dir/Data.DB" (by decide)
  refine ⟨?p1, ?p2, h2.1⟩
  · have := h1.1
    rwa [show strToLower (pathSuffix "file.xyz") = ".xyz" from rfl] at this
  · have := h1.2.2
    rwa [show strToLower (pathSuffix "file.xyz") = ".xyz" from rfl] at this

/-- C2: `execute_query` classifies by the leading keyword of the statement
text, case-insensitively and ignoring leading whitespace: a read (SELECT)
statement returns the engine's result set untouched (for `SELECT 1` the
single column "1", with no synthetic affected_rows column), while any other
statement is committed and reported through the single synthetic column
`affected_rows` holding the engine's mutation count (for `DELETE FROM t`
the number of rows the table held). -/
theorem C2_statement_classification :
    (∀ (c : SQLiteConnector) (db : DB) (n timeout : Int),
      c.connection = some db →
      (execute_query c (.selectLit n) timeout).2.columns = [toString n]
      ∧ (execute_query c (.selectLit n) timeout).2.rows = [[SQLValue.vInt n]]
      ∧ "affected_rows" ∉ (execute_query c (.selectLit 1) timeout).2.columns)
    ∧ (∀ (c : SQLiteConnector) (db : DB) (t : String) (tbl : Table) (timeout : Int),
      c.connection = some db → dbLookup db t = some tbl →
      (execute_query c (.deleteAll t) timeout).2.columns = ["affected_rows"]
      ∧ (execute_query c (.deleteAll t) timeout).2.rows
          = [[SQLValue.vInt (tbl.rows.length : Int)]]
      ∧ (execute_query c (.deleteAll t) timeout).1.connection = some (dbSetRows db t []))
    ∧ (∀ (c : SQLiteConnector) (db db2 : DB) (q : Stmt) (timeout : Int)
        (cols : List String) (rows : List (List SQLValue)),
      c.connection = some db → engineExec q db = .ok (db2, .resultSet cols rows) →
      isReadQuery (render q) = true →
      (execute_query c q timeout).2.columns = cols
      ∧ (execute_query c q timeout).2.rows = rows)
    ∧ (∀ (c : SQLiteConnector) (db db2 : DB) (q : Stmt) (timeout n : Int),
      c.connection = some db → engineExec q db = .ok (db2, .mutated n) →
      isReadQuery (render q) = false →
      (execute_query c q timeout).2.columns = ["affected_rows"]
      ∧ (execute_query c q timeout).2.rows = [[SQLValue.vInt n]]
      ∧ (execute_query c q timeout).1.connection = some db2)
    ∧ (isReadQuery "  select 1" = true ∧ isReadQuery "DELETE FROM t" = false
        ∧ isReadQuery " Update t SET x = 1" = false) := by
  refine ⟨?p1, ?p2, ?p3, ?p4, by decide, by decide, by decide⟩
  · intro c db n timeout hc
    refine ⟨?q1, ?q2, ?q3⟩
    · simp [execute_query, hc, engineExec, isReadQuery_selectLit]
    · simp [execute_query, hc, engineExec, isReadQuery_selectLit]
    · simp [execute_query, hc, engineExec, isReadQuery_selectLit]
      decide
  · intro c db t tbl timeout hc hlook
    have hw := isReadQuery_deleteAll t
    refine ⟨?r1, ?r2, ?r3⟩ <;>
      simp [execute_query, hc, engineExec, hlook, hw]
  · intro c db db2 q timeout cols rows hc he hread
    constructor <;> simp [execute_query, hc, he, hread]
  · intro c db db2 q timeout n hc he hread
    refine ⟨?s1, ?s2, ?s3⟩ <;> simp [execute_query, hc, he, hread]

/-- C2 witness: against a concrete two-row table, `SELECT 1` yields the
single column "1" and `DELETE FROM t` yields affected_rows = 2. -/
theorem C2_witness :
    (execute_query exConn1 (.selectLit 1) 30).2.columns = ["1"]
    ∧ "affected_rows" ∉ (execute_query exConn1 (.selectLit 1) 30).2.columns
    ∧ (execute_query exConn1 (.deleteAll "t") 30).2.columns = ["affected_rows"]
    ∧ (execute_query exConn1 (.deleteAll "t") 30).2.rows = [[SQLValue.vInt 2]] := by
  have h1 := C2_statement_classification.1 exConn1 exDB1 1 30 rfl
  have h2 := C2_statement_classification.2.1 exConn1 exDB1 "t"
    { cols := [{ name := "x", decl_type := "INTEGER", notnull := 0,
                 dflt_value := none, pk := 1 }],
      rows := [[.vInt 1], [.vInt 2]],
      fks := [], idxs := [],
      ddl := "CREATE TABLE t (x INTEGER PRIMARY KEY)" } 30 rfl rfl
  exact ⟨h1.1, h1.2.2, h2.1, h2.2.1⟩

/-! Bounds used by C3. -/

theorem applyLimitOffset_length (rows : List (List SQLValue)) (limit offset : Int)
    (h : 0 ≤ limit) :
    (applyLimitOffset rows limit offset).length ≤ limit.toNat
    ∧ (applyLimitOffset rows limit offset).length ≤ rows.length - offset.toNat := by
  unfold applyLimitOffset
  have hneg : ¬ limit < 0 := not_lt.mpr h
  simp only [hneg, if_false]
  constructor
  · simp [List.length_take]
  · simp [List.length_take, List.length_drop]

def exDB3 : DB :=
  [("t",
    { cols := [{ name := "x", decl_type := "INTEGER", notnull := 0,
                 dflt_value := none, pk := 0 }],
      rows := [[.vInt 7]],
      fks := [], idxs := [], ddl := "CREATE TABLE t (x INTEGER)" })]

def exConn3 : SQLiteConnector :=
  { connection := some exDB3, file_path := some "one-row.db" }

/-- C3 counterexample: on a one-row table, `get_table_data` at offset 2 and
limit 5 returns 0 rows, so `offset + returned_count = 2 > 1 = get_row_count`
— the claimed inequality `offset + returned_count ≤ get_row_count` fails
when the offset exceeds the row count. -/
theorem C3_counterexample :
    (get_table_data exConn3 "t" 2 5 none false).toOption.map (fun r => r.rows.length)
        = some 0
    ∧ get_row_count exConn3 "t" = 1
    ∧ ¬ ((2 : Nat) + 0 ≤ 1) := by
  exact ⟨rfl, rfl, by decide⟩

/-- `execute_query` on the star-select that `get_table_data` builds either
fails in-band with no rows, or returns `applyLimitOffset` of a permutation
of the table's rows. -/
theorem execute_query_selectStar_shape
    (c : SQLiteConnector) (db : DB) (t : String) (ob : Option String)
    (od : Bool) (limit offset timeout : Int) (hc : c.connection = some db) :
    (execute_query c (.selectStar t ob od limit offset) timeout).2.rows = []
    ∨ (∃ (tbl : Table) (base : List (List SQLValue)),
        dbLookup db t = some tbl ∧ base.length = tbl.rows.length
        ∧ (execute_query c (.selectStar t ob od limit offset) timeout).2.rows
            = applyLimitOffset base limit offset) := by
  have hread := isReadQuery_selectStar t ob od limit offset
  cases hlook : dbLookup db t with
  | none =>
    left
    simp [execute_query, hc, engineExec, hlook]
  | some tbl =>
    cases ob with
    | none =>
      right
      exact ⟨tbl, tbl.rows, rfl, rfl,
        by simp only [execute_query, hc, engineExec, hlook, hread, if_true]⟩
    | some col =>
      cases hfind : (tbl.cols.map (fun cm => cm.name)).findIdx? (fun n => n == col) with
      | none =>
        left
        simp [execute_query, hc, engineExec, hlook, hfind]
      | some i =>
        right
        refine ⟨tbl,
          (if od = true then
            isort (fun r s => sqlValueLe (s.getD i SQLValue.vNull) (r.getD i SQLValue.vNull))
              tbl.rows
          else
            isort (fun r s => sqlValueLe (r.getD i SQLValue.vNull) (s.getD i SQLValue.vNull))
              tbl.rows),
          rfl, ?hlen, ?heq⟩
        case heq =>
          simp only [execute_query, hc, engineExec, hlook, hfind, hread, if_true]
        case hlen =>
          cases od
          · simpa using (isort_perm
              (fun (r s : List SQLValue) =>
                sqlValueLe (r.getD i SQLValue.vNull) (s.getD i SQLValue.vNull))
              tbl.rows).length_eq
          · simpa using (isort_perm
              (fun (r s : List SQLValue) =>
                sqlValueLe (s.getD i SQLValue.vNull) (r.getD i SQLValue.vNull))
              tbl.rows).length_eq

/-- C3 amended: with a connected database and non-negative offset and limit,
`get_table_data` returns at most `limit` rows, and whenever the offset does
not exceed `get_row_count` of the table, `offset + returned_count ≤
get_row_count` holds (the original unconditional inequality fails for
offsets beyond the row count). -/
theorem C3_amended_bounds :
    ∀ (c : SQLiteConnector) (db : DB) (t : String) (offset limit : Int)
      (ob : Option String) (od : Bool) (r : QueryResult),
      c.connection = some db → 0 ≤ offset → 0 ≤ limit →
      get_table_data c t offset limit ob od = .ok r →
      r.rows.length ≤ limit.toNat
      ∧ (offset.toNat ≤ get_row_count c t →
          offset.toNat + r.rows.length ≤ get_row_count c t) := by
  intro c db t offset limit ob od r hc hoff hlim hr
  simp only [get_table_data, hc] at hr
  injection hr with hr
  subst hr
  rcases execute_query_selectStar_shape c db t ob od limit offset 30 hc with
    hsh | ⟨tbl, base, hlook, hlen, hsh⟩
  · rw [hsh]
    exact ⟨by simp, fun hle => by simpa using hle⟩
  · rw [hsh]
    have hrc : get_row_count c t = tbl.rows.length := by
      simp [get_row_count, hc, hlook]
    have hb := applyLimitOffset_length base limit offset hlim
    refine ⟨hb.1, ?second⟩
    intro hle
    rw [hrc] at hle ⊢
    have h2 := hb.2
    rw [hlen] at h2
    omega

/-- C3 witness: on the one-row table with offset 0 and limit 5 both amended
bounds hold. -/
theorem C3_witness :
    ∃ r, get_table_data exConn3 "t" 0 5 none false = .ok r
      ∧ r.rows.length ≤ (5 : Int).toNat
      ∧ (0 : Int).toNat + r.rows.length ≤ get_row_count exConn3 "t" := by
  have h := C3_amended_bounds exConn3 exDB3 "t" 0 5 none false
    (execute_query exConn3 (.selectStar "t" none false 5 0) 30).2 rfl
    (by decide) (by decide) rfl
  exact ⟨_, rfl, h.1, h.2 (by decide)⟩

/-! Lemmas for C6: the primary-key list and the per-column flags are
computed from the same pragma rows and stay in agreement through the
foreign-key annotation pass. -/

theorem applyFk_preserves (fk : FkMeta) (col : ColumnInfo) :
    (applyFk fk col).name = col.name
    ∧ (applyFk fk col).is_primary_key = col.is_primary_key := by
  unfold applyFk
  by_cases h : col.name = fk.from_col <;> simp [h]

theorem filter_map_name_invariant (g : ColumnInfo → ColumnInfo)
    (hg : ∀ col, (g col).name = col.name ∧ (g col).is_primary_key = col.is_primary_key)
    (l : List ColumnInfo) :
    (((l.map g).filter (fun col => col.is_primary_key)).map (fun col => col.name))
      = ((l.filter (fun col => col.is_primary_key)).map (fun col => col.name)) := by
  induction l with
  | nil => rfl
  | cons h t ih =>
    simp only [List.map_cons, List.filter_cons, (hg h).1, (hg h).2]
    cases hpk : h.is_primary_key <;> simp [hpk, ih, (hg h).1]

theorem foldl_applyFk_pk_names (fks : List FkMeta) (cols : List ColumnInfo) :
    (((fks.foldl (fun cs fk => cs.map (applyFk fk)) cols).filter
        (fun col => col.is_primary_key)).map (fun col => col.name))
      = ((cols.filter (fun col => col.is_primary_key)).map (fun col => col.name)) := by
  induction fks generalizing cols with
  | nil => rfl
  | cons fk rest ih =>
    simp only [List.foldl_cons]
    rw [ih, filter_map_name_invariant (applyFk fk) (fun col => applyFk_preserves fk col)]

theorem mkColumnInfo_pk_names (metas : List ColMeta) :
    (((metas.map mkColumnInfo).filter (fun col => col.is_primary_key)).map
        (fun col => col.name))
      = ((metas.filter (fun cm => cm.pk != 0)).map (fun cm => cm.name)) := by
  induction metas with
  | nil => rfl
  | cons cm rest ih =>
    simp only [List.map_cons, List.filter_cons]
    cases hpk : (cm.pk != 0) <;>
      simp [mkColumnInfo, hpk, ih]

/-- C6: for every connected database and table, the `primary_keys` list of
`get_schema` contains exactly the names of the columns whose
`is_primary_key` flag is set, in column order — the two representations
always agree. -/
theorem C6_primary_keys_agree :
    ∀ (c : SQLiteConnector) (db : DB) (t : String) (s : TableSchema),
      c.connection = some db → get_schema c t = .ok s →
      s.primary_keys
        = ((s.columns.filter (fun col => col.is_primary_key)).map (fun col => col.name)) := by
  intro c db t s hc hs
  simp only [get_schema, hc] at hs
  injection hs with hs
  subst hs
  rw [foldl_applyFk_pk_names, mkColumnInfo_pk_names]

def exTable6 : Table :=
  { cols := [{ name := "id", decl_type := "INTEGER", notnull := 1,
               dflt_value := none, pk := 1 },
             { name := "owner", decl_type := "INTEGER", notnull := 0,
               dflt_value := none, pk := 0 },
             { name := "label", decl_type := "", notnull := 0,
               dflt_value := some "x", pk := 0 }],
    rows := [],
    fks := [{ from_col := "owner", ref_table := "users", to_col := "id" }],
    idxs := [{ name := "ix_owner", cols := ["owner"], unique_flag := 0 }],
    ddl := "CREATE TABLE things (id INTEGER PRIMARY KEY, owner INTEGER, label)" }

def exConn6 : SQLiteConnector :=
  { connection := some [("things", exTable6)], file_path := some "things.db" }

/-- C6 witness: on a concrete table with a primary key, a foreign key and an
untyped column, the schema's two primary-key representations agree. -/
theorem C6_witness :
    ∃ s, get_schema exConn6 "things" = .ok s
      ∧ s.primary_keys
          = ((s.columns.filter (fun col => col.is_primary_key)).map (fun col => col.name))
      ∧ s.primary_keys = ["id"] := by
  refine ⟨_, rfl, C6_primary_keys_agree exConn6 [("things", exTable6)] "things" _ rfl rfl, ?pk⟩
  rfl

/-! Lemmas for the history store (C5, C7, C8). -/

theorem mem_takeLimit_of_length_le (limit : Int) (l : List α) (x : α)
    (hx : x ∈ l) (h : (l.length : Int) ≤ limit) : x ∈ takeLimit limit l := by
  unfold takeLimit
  by_cases hneg : limit < 0
  · simpa [hneg] using hx
  · have hle : l.length ≤ limit.toNat := by omega
    rw [if_neg hneg, List.take_of_length_le hle]
    exact hx

theorem mem_of_mem_takeLimit (limit : Int) (l : List α) (x : α)
    (hx : x ∈ takeLimit limit l) : x ∈ l := by
  unfold takeLimit at hx
  by_cases hneg : limit < 0
  · simpa [hneg] using hx
  · rw [if_neg hneg] at hx
    exact List.mem_of_mem_take hx

theorem takeLimit_sublist (limit : Int) (l : List α) :
    (takeLimit limit l).Sublist l := by
  unfold takeLimit
  by_cases hneg : limit < 0
  · simp [hneg]
  · rw [if_neg hneg]
    exact List.take_sublist _ l

theorem length_takeLimit_le (limit : Int) (l : List α) (h : 0 ≤ limit) :
    (takeLimit limit l).length ≤ limit.toNat := by
  unfold takeLimit
  have hneg : ¬ limit < 0 := not_lt.mpr h
  rw [if_neg hneg]
  simp [List.length_take]

/-- C5: a record written through `add_query` and read back through
`get_history` (with a limit large enough not to truncate it away)
reproduces `database_path`, `query_text`, `execution_time`, `row_count`,
the `success` flag and `error_message` exactly; only the store-assigned
identity differs, and the timestamp is the written one unless it was
absent, in which case it is the insertion-time default. -/
theorem C5_roundtrip :
    ∀ (db : QueryHistoryDB) (rec : QueryRecord) (now : String) (limit : Int),
      ((db.rows.length : Int) + 1 ≤ limit) →
      ∃ r ∈ get_history (add_query db rec now).1 limit none,
        r.id = some (add_query db rec now).2
        ∧ r.database_path = rec.database_path
        ∧ r.query_text = rec.query_text
        ∧ r.execution_time = rec.execution_time
        ∧ r.row_count = rec.row_count
        ∧ r.success = rec.success
        ∧ r.error_message = rec.error_message
        ∧ r.timestamp = (if rec.timestamp = "" then now else rec.timestamp) := by
  intro db rec now limit hlim
  refine ⟨rowToRecord
      { row_id := db.next_id,
        database_path := rec.database_path,
        query_text := rec.query_text,
        timestamp := if rec.timestamp = "" then now else rec.timestamp,
        execution_time := rec.execution_time,
        row_count := rec.row_count,
        success_int := if rec.success then 1 else 0,
        error_message := rec.error_message },
    ?hmem, rfl, rfl, rfl, rfl, rfl, ?hsucc, rfl, rfl⟩
  · have hrowmem :
        ({ row_id := db.next_id,
           database_path := rec.database_path,
           query_text := rec.query_text,
           timestamp := if rec.timestamp = "" then now else rec.timestamp,
           execution_time := rec.execution_time,
           row_count := rec.row_count,
           success_int := if rec.success then 1 else 0,
           error_message := rec.error_message } : HistRow)
          ∈ (add_query db rec now).1.rows := by
      simp [add_query]
    have h1 := (isort_perm
      (fun (a b : HistRow) => decide (b.timestamp ≤ a.timestamp))
      ((add_query db rec now).1.rows)).mem_iff.mpr hrowmem
    have hlen : (((tsDescSort ((add_query db rec now).1.rows)).length : Int)) ≤ limit := by
      rw [show tsDescSort ((add_query db rec now).1.rows)
            = isort (fun (a b : HistRow) => decide (b.timestamp ≤ a.timestamp))
                ((add_query db rec now).1.rows) from rfl,
          (isort_perm _ _).length_eq]
      simp only [add_query, List.length_append, List.length_cons, List.length_nil]
      omega
    have h2 := mem_takeLimit_of_length_le limit _ _ h1 hlen
    exact List.mem_map_of_mem rowToRecord h2
  · cases hb : rec.success <;> simp [rowToRecord, hb]

def exRec5 : QueryRecord :=
  { id := none, database_path := "d.db", query_text := "SELECT 1",
    timestamp := "", execution_time := 0.25, row_count := 1,
    success := true, error_message := "" }

def exHist5 : QueryHistoryDB := { rows := [], next_id := 1 }

/-- C5 witness: on an empty store the written record comes back with its
fields intact, the assigned id, and the defaulted timestamp. -/
theorem C5_witness :
    ∃ r ∈ get_history (add_query exHist5 exRec5 "2024-05-01T12:00:00").1 100 none,
      r.id = some (add_query exHist5 exRec5 "2024-05-01T12:00:00").2
      ∧ r.query_text = exRec5.query_text
      ∧ r.execution_time = exRec5.execution_time
      ∧ r.success = exRec5.success
      ∧ r.timestamp = "2024-05-01T12:00:00" := by
  obtain ⟨r, hmem, h1, _h2, h3, h4, _h5, h6, _h7, h8⟩ :=
    C5_roundtrip exHist5 exRec5 "2024-05-01T12:00:00" 100 (by decide)
  exact ⟨r, hmem, h1, h3, h4, h6, by simpa using h8⟩

def exRow7 : HistRow :=
  { row_id := 1, database_path := "d.db", query_text := "SELECT 1",
    timestamp := "2024-01-01T00:00:00", execution_time := 0.0,
    row_count := 0, success_int := 1, error_message := "" }

def exHist7 : QueryHistoryDB := { rows := [exRow7], next_id := 2 }

/-- C7 counterexample: after `clear_history` has emptied the store, a second
identical call removes nothing yet still returns true — refuting both
"returns true iff at least one record was removed" and "a second identical
call returns false" for `clear_history`. -/
theorem C7_counterexample :
    (clear_history exHist7).1.rows = []
    ∧ (clear_history (clear_history exHist7).1).2 = true :=
  ⟨rfl, rfl⟩

/-- C7 amended: `delete_record` is an idempotent deletion that reports
whether anything was removed — it returns true iff a record with the id
existed, and an immediate second identical call returns false; but
`clear_history`, while idempotent in effect (it always leaves the store
empty), returns true whenever its DELETE executes, even when nothing was
removed, so its second call also returns true. -/
theorem C7_amended_deletion_reporting :
    ∀ (db : QueryHistoryDB) (rid : Int),
      ((delete_record db rid).2 = true ↔ ∃ r ∈ db.rows, r.row_id = rid)
      ∧ (delete_record (delete_record db rid).1 rid).2 = false
      ∧ (clear_history db).1.rows = []
      ∧ (clear_history db).2 = true
      ∧ (clear_history (clear_history db).1).2 = true := by
  intro db rid
  refine ⟨?hiff, ?hsecond, rfl, rfl, rfl⟩
  · simp [delete_record, List.countP_pos_iff]
  · have h0 : ((db.rows.filter (fun r => !(r.row_id == rid))).countP
        (fun r => r.row_id == rid)) = 0 := by
      apply List.countP_eq_zero.mpr
      intro a ha
      have hq := (List.mem_filter.mp ha).2
      simp at hq
      simp [hq]
    simp [delete_record, h0]

/-! LIKE versus substring matching (C8). -/

theorem likeMatch_percent (cs : List Char) : likeMatch ['%'] cs = true := by
  rw [show likeMatch ['%'] cs = (cs.tails).any (fun suf => likeMatch [] suf) from by
    simp [likeMatch]]
  rw [List.any_eq_true]
  exact ⟨[], by simp [List.mem_tails], by simp [likeMatch]⟩

theorem likeMatch_plain_append_percent (p : List Char)
    (hp : ∀ ch ∈ p, ch ≠ '%' ∧ ch ≠ '_') (cs : List Char) :
    likeMatch (p ++ ['%']) cs = startsCI p cs := by
  induction p generalizing cs with
  | nil => simp [likeMatch_percent, startsCI]
  | cons a ps ih =>
    have ha := hp a (List.mem_cons_self a ps)
    have hps : ∀ ch ∈ ps, ch ≠ '%' ∧ ch ≠ '_' :=
      fun ch hch => hp ch (List.mem_cons_of_mem a hch)
    cases cs with
    | nil => simp [likeMatch, startsCI, ha.1]
    | cons c cs2 =>
      simp only [List.cons_append, likeMatch, startsCI, ha.1, ha.2,
        if_false, if_neg]
      simp only [List.append_eq]
      rw [ih hps]

theorem likeMatch_pattern_eq_containsCI (p : List Char)
    (hp : ∀ ch ∈ p, ch ≠ '%' ∧ ch ≠ '_') (cs : List Char) :
    likeMatch ('%' :: (p ++ ['%'])) cs = containsCI p cs := by
  induction cs with
  | nil =>
    rw [show likeMatch ('%' :: (p ++ ['%'])) []
          = (([] : List Char).tails).any (fun suf => likeMatch (p ++ ['%']) suf) from by
      simp [likeMatch]]
    simp [likeMatch_plain_append_percent p hp, containsCI]
  | cons c hs ih =>
    rw [show likeMatch ('%' :: (p ++ ['%'])) (c :: hs)
          = ((c :: hs).tails).any (fun suf => likeMatch (p ++ ['%']) suf) from by
      simp [likeMatch]]
    rw [show ((c :: hs).tails).any (fun suf => likeMatch (p ++ ['%']) suf)
          = (likeMatch (p ++ ['%']) (c :: hs)
              || (hs.tails).any (fun suf => likeMatch (p ++ ['%']) suf)) from by
      simp [List.tails]]
    rw [show (hs.tails).any (fun suf => likeMatch (p ++ ['%']) suf)
          = likeMatch ('%' :: (p ++ ['%'])) hs from by simp [likeMatch]]
    rw [ih, likeMatch_plain_append_percent p hp]
    rfl

def exRow8 : HistRow :=
  { row_id := 1, database_path := "d.db", query_text := "axb",
    timestamp := "2024-01-01T00:00:00", execution_time := 0.0,
    row_count := 0, success_int := 1, error_message := "" }

def exHist8 : QueryHistoryDB := { rows := [exRow8], next_id := 2 }

/-- C8 counterexample: the search term "a_b" (containing the LIKE wildcard
`_`) matches the stored query text "axb", which does not contain "a_b" as a
(case-insensitive) substring — so `search_history` does not return "exactly
those records whose query_text contains the term as a substring" for every
term. -/
theorem C8_counterexample :
    ((search_history exHist8 "a_b" 100).map (fun r => r.query_text)) = ["axb"]
    ∧ containsCIStr "axb" "a_b" = false :=
  ⟨rfl, by decide⟩

/-- C8 amended: for every search term free of the SQL LIKE wildcards `%`
and `_`, `search_history` returns exactly the stored records whose
query_text contains the term as an ASCII-case-insensitive substring,
ordered by timestamp descending (most recent first), truncated to the
limit; terms containing wildcard characters are instead matched with LIKE
wildcard semantics. -/
theorem C8_amended_search_semantics :
    ∀ (db : QueryHistoryDB) (term : String) (limit : Int),
      (∀ ch ∈ term.data, ch ≠ '%' ∧ ch ≠ '_') →
      search_history db term limit
        = (takeLimit limit (tsDescSort
            (db.rows.filter (fun r => containsCIStr r.query_text term)))).map rowToRecord
      ∧ (∀ r ∈ search_history db term limit,
          ∃ row ∈ db.rows, r = rowToRecord row ∧ containsCIStr row.query_text term = true)
      ∧ List.Pairwise (fun a b => b.timestamp ≤ a.timestamp)
          (search_history db term limit)
      ∧ (0 ≤ limit → (search_history db term limit).length ≤ limit.toNat) := by
  intro db term limit hterm
  have hfun : ∀ (r : HistRow), likeMatch (likePattern term) r.query_text.data
      = containsCIStr r.query_text term := fun r =>
    likeMatch_pattern_eq_containsCI term.data hterm r.query_text.data
  have hfe : (fun (r : HistRow) => likeMatch (likePattern term) r.query_text.data)
      = (fun r => containsCIStr r.query_text term) := funext hfun
  have heq : search_history db term limit
      = (takeLimit limit (tsDescSort
          (db.rows.filter (fun r => containsCIStr r.query_text term)))).map rowToRecord := by
    unfold search_history
    rw [hfe]
  refine ⟨heq, ?hsound, ?hsorted, ?hlen⟩
  · intro r hr
    rw [heq] at hr
    obtain ⟨row, hrowmem, hmap⟩ := List.mem_map.mp hr
    have h3 := mem_of_mem_takeLimit _ _ _ hrowmem
    have h4 := (isort_perm _ _).mem_iff.mp h3
    have h5 := List.mem_filter.mp h4
    exact ⟨row, h5.1, hmap.symm, h5.2⟩
  · have htot : ∀ a b : HistRow,
        (decide (b.timestamp ≤ a.timestamp)) = true
        ∨ (decide (a.timestamp ≤ b.timestamp)) = true := by
      intro a b
      rcases le_total b.timestamp a.timestamp with h | h
      · exact Or.inl (decide_eq_true h)
      · exact Or.inr (decide_eq_true h)
    have htr : ∀ a b c : HistRow,
        decide (b.timestamp ≤ a.timestamp) = true →
        decide (c.timestamp ≤ b.timestamp) = true →
        decide (c.timestamp ≤ a.timestamp) = true := by
      intro a b c h1 h2
      exact decide_eq_true (le_trans (of_decide_eq_true h2) (of_decide_eq_true h1))
    have hp := pairwise_isort _ htot htr
      (db.rows.filter (fun r => likeMatch (likePattern term) r.query_text.data))
    have hp2 : List.Pairwise (fun (a b : HistRow) => b.timestamp ≤ a.timestamp)
        (tsDescSort (db.rows.filter
          (fun r => likeMatch (likePattern term) r.query_text.data))) :=
      hp.imp (fun h => of_decide_eq_true h)
    have hp3 := hp2.sublist (takeLimit_sublist limit _)
    exact List.pairwise_map.mpr hp3
  · intro hl
    calc (search_history db term limit).length
        = (takeLimit limit (tsDescSort (db.rows.filter
            (fun r => likeMatch (likePattern term) r.query_text.data)))).length := by
          simp [search_history]
      _ ≤ limit.toNat := length_takeLimit_le _ _ hl

def exRow8b : HistRow :=
  { row_id := 2, database_path := "d.db", query_text := "select * from users",
    timestamp := "2024-02-01T00:00:00", execution_time := 0.0,
    row_count := 3, success_int := 1, error_message := "" }

def exHist8w : QueryHistoryDB := { rows := [exRow8, exRow8b], next_id := 3 }

/-- C8 witness: for the wildcard-free term "SELECT" on a two-row store the
amended search semantics hold at concrete inputs. -/
theorem C8_witness :
    search_history exHist8w "SELECT" 10
      = (takeLimit 10 (tsDescSort
          (exHist8w.rows.filter (fun r => containsCIStr r.query_text "SELECT")))).map
            rowToRecord
    ∧ List.Pairwise (fun a b => b.timestamp ≤ a.timestamp)
        (search_history exHist8w "SELECT" 10)
    ∧ (search_history exHist8w "SELECT" 10).length ≤ (10 : Int).toNat := by
  have h := C8_amended_search_semantics exHist8w "SELECT" 10 (by decide)
  exact ⟨h.1, h.2.2.1, h.2.2.2 (by decide)⟩

end DBV
